import Mathlib

/-!
Shallow embedding of the rendercrewai repository
(src/crew_definitions.py and src/main.py) and verification of its
specification.

Python dictionaries with string keys are modelled as association lists
(`List (String × α)`) with first-match lookup; `dict.get(k, d)` is
`(dictGet table k).getD d`.  Python truthiness of `Optional[str]`
(`None` and `""` are falsy) is `pyTruthy`.  The external crewai engine
(`crew.kickoff_async`) and the event-loop clock are parameters of the
endpoint model: the engine is a function from the crew and the input
mapping to `Except String String` (exception message or result), and
the two clock readings taken around the engine invocation are rational
numbers.
-/

namespace RenderCrew

/-- First-match lookup in an association list; models Python `dict[k]`
access via `dict.get`. -/
def dictGet {α : Type} : List (String × α) → String → Option α
  | [], _ => none
  | p :: rest, k => if p.1 = k then some p.2 else dictGet rest k

/-- Python truthiness of an `Optional[str]`: `None` and the empty
string are falsy. -/
def pyTruthy : Option String → Bool
  | none => false
  | some s => !s.isEmpty

/-- crewai `Agent(role=..., goal=..., backstory=..., verbose=True,
allow_delegation=True)` as constructed by `create_agent_for_role`. -/
structure Agent where
  role : String
  goal : String
  backstory : String
  verbose : Bool
  allow_delegation : Bool
deriving DecidableEq, Repr

/-- crewai `Task(description=..., expected_output=..., agent=...)` as
constructed by `create_task_for_role`. -/
structure Task where
  description : String
  expected_output : String
  agent : Agent
deriving DecidableEq, Repr

/-- crewai `Process`; the repository only uses `Process.sequential`. -/
inductive Process where
  | sequential
  | hierarchical
deriving DecidableEq, Repr

/-- crewai `Crew(agents=..., tasks=..., verbose=2,
process=Process.sequential, callbacks=...)`.  The opaque external
callbacks object carries no data relevant to the spec and is omitted. -/
structure Crew where
  agents : List Agent
  tasks : List Task
  verbose : Nat
  process : Process
deriving DecidableEq, Repr

/-- The fields of `MusicalTheaterCrew` set by `__init__` that are ever
read: the fixed role list and the per-role task templates.  (The
`self.agents` and `self.tasks` empty dicts set by `__init__` are never
read anywhere and are omitted.) -/
structure MusicalTheaterCrew where
  roles : List String
  task_templates : List (String × List (String × String))

/-- `MusicalTheaterCrew.__init__` from src/crew_definitions.py. -/
def MusicalTheaterCrew.init : MusicalTheaterCrew :=
  { roles := [
      "Composer + Lyricist",
      "Book",
      "Director",
      "Choreographer",
      "Set/Visual",
      "Dramaturg",
      "Market/Producer"],
    task_templates := [
      ("Composer + Lyricist", [
        ("Compose new songs", "Sheet music and lyrics for all songs"),
        ("Develop musical themes", "Musical motifs for characters and scenes"),
        ("Create vocal arrangements", "Detailed vocal arrangements for ensemble")]),
      ("Book", [
        ("Draft storyline", "Complete first draft of the book"),
        ("Character development", "Detailed character backgrounds and arcs"),
        ("Scene structure", "Scene-by-scene breakdown with transitions")]),
      ("Director", [
        ("Review creative inputs", "Provide feedback on creative direction"),
        ("Vision development", "Comprehensive production vision document"),
        ("Staging concepts", "Initial staging plans for key scenes")]),
      ("Choreographer", [
        ("Develop choreography", "Choreography plans for musical numbers"),
        ("Movement patterns", "Character-specific movement guidelines"),
        ("Dance arrangements", "Dance break arrangements for ensemble numbers")]),
      ("Set/Visual", [
        ("Design set sketches", "Mood boards and initial sketches"),
        ("Technical requirements", "Technical specifications for set pieces"),
        ("Visual continuity", "Scene transition and visual flow plans")]),
      ("Dramaturg", [
        ("Check continuity", "A list of suggested storyline adjustments"),
        ("Historical research", "Period-specific reference materials"),
        ("Theme analysis", "Analysis of major themes and motifs")]),
      ("Market/Producer", [
        ("Analyze market trends", "Market analysis report"),
        ("Budget planning", "Initial budget breakdown"),
        ("Marketing strategy", "Marketing and promotion plan")])] }

/-- The `role_descriptions` dict literal inside `create_agent_for_role`:
role ↦ (goal, backstory). -/
def role_descriptions : List (String × (String × String)) := [
  ("Composer + Lyricist",
    ("Create compelling musical numbers and lyrics that advance the story",
     "You are an experienced composer and lyricist with a deep understanding of musical theater conventions and the ability to create memorable melodies and meaningful lyrics.")),
  ("Book",
    ("Develop a coherent and engaging narrative structure",
     "You are a skilled playwright with experience in crafting compelling stories and developing rich characters for musical theater.")),
  ("Director",
    ("Unify the creative vision and guide the overall production",
     "You are a seasoned director with expertise in bringing together various theatrical elements into a cohesive whole.")),
  ("Choreographer",
    ("Create dynamic movement that enhances the storytelling",
     "You are an innovative choreographer who specializes in creating movement that serves both the story and the music.")),
  ("Set/Visual",
    ("Design compelling visual environments that support the narrative",
     "You are a creative designer with experience in creating immersive theatrical environments that enhance storytelling.")),
  ("Dramaturg",
    ("Ensure historical accuracy and narrative consistency",
     "You are a meticulous researcher and story expert who helps maintain the integrity of the production.")),
  ("Market/Producer",
    ("Develop effective marketing strategies and manage production resources",
     "You are an experienced producer with a strong understanding of theater marketing and production management."))]

/-- The generic fallback (goal, backstory) pair: the default argument of
`role_descriptions.get(role, {...})` in `create_agent_for_role`. -/
def fallback_role_info : String × String :=
  ("Contribute to the overall success of the production",
   "You are a theater professional with expertise in your specific domain.")

/-- `create_agent_for_role` from src/crew_definitions.py. -/
def create_agent_for_role (role : String) : Agent :=
  let role_info := (dictGet role_descriptions role).getD fallback_role_info
  { role := role,
    goal := role_info.1,
    backstory := role_info.2,
    verbose := true,
    allow_delegation := true }

/-- `create_task_for_role` from src/crew_definitions.py. -/
def create_task_for_role (agent : Agent) (task_desc : String × String) : Task :=
  { description := task_desc.1,
    expected_output := task_desc.2,
    agent := agent }

/-- `create_musical_theater_crew` from src/crew_definitions.py: the loop
over `crew_manager.roles` appending one agent per role and, per role,
one task per template from `task_templates.get(role, [])`. -/
def create_musical_theater_crew (production_name : String) : Crew :=
  let crew_manager := MusicalTheaterCrew.init
  let pair := crew_manager.roles.foldl
    (fun (acc : List Agent × List Task) (role : String) =>
      let agent := create_agent_for_role role
      let role_tasks := (dictGet crew_manager.task_templates role).getD []
      (acc.1 ++ [agent],
       acc.2 ++ role_tasks.map (fun task_desc => create_task_for_role agent task_desc)))
    ([], [])
  { agents := pair.1,
    tasks := pair.2,
    verbose := 2,
    process := Process.sequential }

/-- A FastAPI `HTTPException(status_code=..., detail=...)`. -/
structure HTTPException where
  status_code : Nat
  detail : String
deriving DecidableEq, Repr

/-- The process environment, modelled as an association list;
`os.getenv` is first-match lookup (a variable set to `""` is present
with the empty value). -/
def os_getenv (env : List (String × String)) (key : String) : Option String :=
  dictGet env key

/-- `verify_api_keys` from src/main.py: collects the required keys whose
`os.getenv` value is falsy (unset or empty) and raises a 500 naming
them; otherwise returns True. -/
def verify_api_keys (env : List (String × String)) : Except HTTPException Bool :=
  let required_keys := ["OPENAI_API_KEY"]
  let missing_keys := required_keys.filter (fun key => !pyTruthy (os_getenv env key))
  if !missing_keys.isEmpty then
    Except.error
      { status_code := 500,
        detail := "Missing required environment variables: " ++
          String.intercalate ", " missing_keys }
  else
    Except.ok true

/-- The pydantic request model `CrewRequest`: a required string
`production_name` and an `additional_context` mapping defaulting to the
empty dict.  Context values are opaque pass-through data, modelled as
strings. -/
structure CrewRequest where
  production_name : String
  additional_context : List (String × String)
deriving DecidableEq, Repr

/-- Pydantic validation of a request body against `CrewRequest`: the
`production_name` field must be present (it may be any string, pydantic
`str` imposes no length constraint); `additional_context` defaults to
the empty dict when absent.  No other validation is declared on the
model. -/
def parseCrewRequest (production_name : Option String)
    (additional_context : Option (List (String × String))) :
    Except String CrewRequest :=
  match production_name with
  | none => Except.error "field required: production_name"
  | some name =>
      Except.ok { production_name := name,
                  additional_context := additional_context.getD [] }

/-- The response model `CrewResponse`; `execution_time` is elapsed
seconds, modelled as a rational. -/
structure CrewResponse where
  result : String
  execution_time : ℚ
deriving DecidableEq, Repr

/-- Insertion into a Python dict: replace the value at an existing key
in place, else append the new key at the end. -/
def dictInsert : List (String × String) → String → String → List (String × String)
  | [], k, v => [(k, v)]
  | p :: rest, k, v =>
      if p.1 = k then (k, v) :: rest else p :: dictInsert rest k v

/-- The input mapping built at src/main.py line 88:
`inputs = \x7b"production_name": request.production_name, **request.additional_context\x7d`
— a dict literal seeded with the production name and then updated with
every entry of `additional_context` in order. -/
def buildInputs (production_name : String)
    (additional_context : List (String × String)) : List (String × String) :=
  additional_context.foldl (fun d p => dictInsert d p.1 p.2)
    [("production_name", production_name)]

/-- The `POST /trigger-crew` handler, generalized over the roster
builder `build` (so that claims about what runs before construction are
statable) and over the external engine `kickoff`
(`crew.kickoff_async(inputs=...)`: returns the result string or raises
with a message).  `verify_api_keys` runs first as a FastAPI dependency;
inside the try block the crew is built, the inputs dict is assembled,
the engine is awaited between the two clock readings `start_time` and
`end_time`, and any exception message `e` is re-raised as a 500 whose
detail embeds `str(e)`. -/
def trigger_crew_gen (build : String → Crew)
    (kickoff : Crew → List (String × String) → Except String String)
    (env : List (String × String)) (request : CrewRequest)
    (start_time end_time : ℚ) : Except HTTPException CrewResponse :=
  match verify_api_keys env with
  | Except.error e => Except.error e
  | Except.ok _ =>
      let crew := build request.production_name
      let inputs := buildInputs request.production_name request.additional_context
      match kickoff crew inputs with
      | Except.ok result =>
          Except.ok { result := result, execution_time := end_time - start_time }
      | Except.error e =>
          Except.error
            { status_code := 500,
              detail := "An error occurred during CrewAI execution: " ++ e }

/-- `trigger_crew` from src/main.py, with the repository's actual roster
builder plugged in. -/
def trigger_crew
    (kickoff : Crew → List (String × String) → Except String String)
    (env : List (String × String)) (request : CrewRequest)
    (start_time end_time : ℚ) : Except HTTPException CrewResponse :=
  trigger_crew_gen create_musical_theater_crew kickoff env request start_time end_time

theorem dictGet_eq_none_of_not_mem {α : Type} (d : List (String × α)) (k : String)
    (h : k ∉ d.map Prod.fst) : dictGet d k = none := by
  induction d with
  | nil => rfl
  | cons p rest ih =>
      simp only [List.map_cons, List.mem_cons, not_or] at h
      have hp : ¬ p.1 = k := fun hp => h.1 hp.symm
      simp only [dictGet, if_neg hp]
      exact ih h.2

theorem dictGet_dictInsert_self (d : List (String × String)) (k v : String) :
    dictGet (dictInsert d k v) k = some v := by
  induction d with
  | nil => simp [dictInsert, dictGet]
  | cons p rest ih =>
      by_cases hp : p.1 = k
      · simp [dictInsert, hp, dictGet]
      · simp [dictInsert, hp, dictGet, ih]

theorem dictGet_dictInsert_ne (d : List (String × String)) (k v q : String)
    (h : q ≠ k) : dictGet (dictInsert d k v) q = dictGet d q := by
  have hk : ¬ k = q := fun hh => h hh.symm
  induction d with
  | nil => simp [dictInsert, dictGet, hk]
  | cons p rest ih =>
      by_cases hp : p.1 = k
      · have hpq : ¬ p.1 = q := fun hh => h (hh.symm.trans hp)
        simp only [dictInsert, if_pos hp, dictGet, if_neg hk, if_neg hpq]
      · simp only [dictInsert, if_neg hp, dictGet, ih]

theorem dictGet_foldl_insert_not_mem (ctx : List (String × String)) (q : String)
    (h : q ∉ ctx.map Prod.fst) :
    ∀ d, dictGet (ctx.foldl (fun d p => dictInsert d p.1 p.2) d) q = dictGet d q := by
  induction ctx with
  | nil => intro d; rfl
  | cons p rest ih =>
      intro d
      simp only [List.map_cons, List.mem_cons, not_or] at h
      rw [List.foldl_cons, ih h.2, dictGet_dictInsert_ne _ _ _ _ h.1]

theorem dictGet_foldl_insert_mem (ctx : List (String × String)) (q v : String)
    (hnodup : (ctx.map Prod.fst).Nodup) (hv : dictGet ctx q = some v) :
    ∀ d, dictGet (ctx.foldl (fun d p => dictInsert d p.1 p.2) d) q = some v := by
  induction ctx with
  | nil => intro d; exact absurd hv (by simp [dictGet])
  | cons p rest ih =>
      intro d
      simp only [List.map_cons, List.nodup_cons] at hnodup
      rw [List.foldl_cons]
      by_cases hp : p.1 = q
      · have hvv : v = p.2 := by
          simp only [dictGet, if_pos hp] at hv
          exact (Option.some_inj.mp hv).symm
        rw [dictGet_foldl_insert_not_mem rest q (hp ▸ hnodup.1), hvv, ← hp,
          dictGet_dictInsert_self]
      · have hv' : dictGet rest q = some v := by
          simpa only [dictGet, if_neg hp] using hv
        exact ih hnodup.2 hv' _

theorem verify_api_keys_missing (env : List (String × String))
    (h : pyTruthy (os_getenv env "OPENAI_API_KEY") = false) :
    verify_api_keys env =
      Except.error
        { status_code := 500,
          detail := "Missing required environment variables: OPENAI_API_KEY" } := by
  unfold verify_api_keys
  simp [h]
  rfl

theorem verify_api_keys_present (env : List (String × String))
    (h : pyTruthy (os_getenv env "OPENAI_API_KEY") = true) :
    verify_api_keys env = Except.ok true := by
  unfold verify_api_keys
  simp [h]

/-- C1: for every input production name, `create_musical_theater_crew`
produces exactly one agent per role of the fixed 7-role list, in the
declared role order (the agent list is the role list mapped through
`create_agent_for_role`, its roles are exactly the declared role list,
which has no duplicates and length 7). -/
theorem crew_agents_one_per_role_in_order (production_name : String) :
    (create_musical_theater_crew production_name).agents =
      MusicalTheaterCrew.init.roles.map create_agent_for_role
    ∧ (create_musical_theater_crew production_name).agents.map Agent.role =
        MusicalTheaterCrew.init.roles
    ∧ MusicalTheaterCrew.init.roles.Nodup
    ∧ (create_musical_theater_crew production_name).agents.length = 7 :=
  ⟨rfl, rfl, by decide, rfl⟩

/-- C2: for every input production name, the task list is, role by role
in the declared role order, that role's statically declared templates in
declared order, each bound to that role's agent descriptor; every role
has exactly 3 templates and the full task sequence has 21 tasks. -/
theorem crew_tasks_per_role_in_order (production_name : String) :
    (create_musical_theater_crew production_name).tasks =
      MusicalTheaterCrew.init.roles.flatMap (fun role =>
        ((dictGet MusicalTheaterCrew.init.task_templates role).getD []).map
          (create_task_for_role (create_agent_for_role role)))
    ∧ (create_musical_theater_crew production_name).tasks.length = 21
    ∧ ∀ role ∈ MusicalTheaterCrew.init.roles,
        ((dictGet MusicalTheaterCrew.init.task_templates role).getD []).length = 3 :=
  ⟨rfl, rfl, by decide⟩

/-- C6: the roster builder's output is independent of its input — any
two production names yield identical crews (same agents, same tasks). -/
theorem crew_independent_of_production_name (n1 n2 : String) :
    create_musical_theater_crew n1 = create_musical_theater_crew n2 :=
  rfl

/-- C8: for every role string not among the keys of the known 7-role
descriptor table, `create_agent_for_role` returns (without failing) an
agent whose goal and backstory are the generic fallback pair, with
verbose enabled and delegation permitted, as for known roles. -/
theorem unknown_role_fallback_agent (role : String)
    (h : role ∉ role_descriptions.map Prod.fst) :
    create_agent_for_role role =
      { role := role,
        goal := fallback_role_info.1,
        backstory := fallback_role_info.2,
        verbose := true,
        allow_delegation := true } := by
  unfold create_agent_for_role
  rw [dictGet_eq_none_of_not_mem _ _ h]
  rfl

/-- Witness for C8 at the concrete unknown role "Stage Manager". -/
theorem unknown_role_fallback_agent_witness :
    "Stage Manager" ∉ role_descriptions.map Prod.fst
    ∧ create_agent_for_role "Stage Manager" =
        { role := "Stage Manager",
          goal := fallback_role_info.1,
          backstory := fallback_role_info.2,
          verbose := true,
          allow_delegation := true } := by
  have h : "Stage Manager" ∉ role_descriptions.map Prod.fst := by decide
  exact ⟨h, unknown_role_fallback_agent "Stage Manager" h⟩

/-- C3: for every request, if the required environment value
OPENAI_API_KEY is absent (its lookup is falsy), the endpoint fails with
a 500 whose detail names the missing key — and it does so uniformly in
the roster builder and the engine, i.e. before any roster construction
or engine work is attempted. -/
theorem trigger_crew_missing_key_500 (env : List (String × String))
    (request : CrewRequest)
    (h : pyTruthy (os_getenv env "OPENAI_API_KEY") = false) :
    ∀ (build : String → Crew)
      (kickoff : Crew → List (String × String) → Except String String)
      (start_time end_time : ℚ),
      trigger_crew_gen build kickoff env request start_time end_time =
        Except.error
          { status_code := 500,
            detail := "Missing required environment variables: OPENAI_API_KEY" } := by
  intro build kickoff start_time end_time
  unfold trigger_crew_gen
  rw [verify_api_keys_missing env h]

/-- Witness for C3: the empty environment, a concrete request, and a
stub builder and engine. -/
theorem trigger_crew_missing_key_500_witness :
    pyTruthy (os_getenv [] "OPENAI_API_KEY") = false
    ∧ trigger_crew_gen create_musical_theater_crew
        (fun _ _ => Except.ok "OK") []
        { production_name := "Test Show", additional_context := [] } 0 0 =
      Except.error
        { status_code := 500,
          detail := "Missing required environment variables: OPENAI_API_KEY" } :=
  ⟨rfl, trigger_crew_missing_key_500 []
    { production_name := "Test Show", additional_context := [] } rfl
    create_musical_theater_crew (fun _ _ => Except.ok "OK") 0 0⟩

/-- C4: for every request passing the environment precondition, if the
engine run raises an exception message, the handler returns a 500 whose
detail embeds that message (no retry, no partial result: the error value
is the whole outcome). -/
theorem trigger_crew_engine_exception_500 (env : List (String × String))
    (request : CrewRequest) (msg : String)
    (kickoff : Crew → List (String × String) → Except String String)
    (start_time end_time : ℚ)
    (hkey : pyTruthy (os_getenv env "OPENAI_API_KEY") = true)
    (hrun : kickoff (create_musical_theater_crew request.production_name)
        (buildInputs request.production_name request.additional_context) =
      Except.error msg) :
    trigger_crew kickoff env request start_time end_time =
      Except.error
        { status_code := 500,
          detail := "An error occurred during CrewAI execution: " ++ msg } := by
  unfold trigger_crew trigger_crew_gen
  rw [verify_api_keys_present env hkey]
  simp only []
  rw [hrun]

/-- Witness for C4: a set key, a concrete request, and an engine stub
that raises "boom". -/
theorem trigger_crew_engine_exception_500_witness :
    pyTruthy (os_getenv [("OPENAI_API_KEY", "sk-test")] "OPENAI_API_KEY") = true
    ∧ (fun (_ : Crew) (_ : List (String × String)) =>
          (Except.error "boom" : Except String String))
        (create_musical_theater_crew "Test Show")
        (buildInputs "Test Show" []) = Except.error "boom"
    ∧ trigger_crew (fun _ _ => Except.error "boom")
        [("OPENAI_API_KEY", "sk-test")]
        { production_name := "Test Show", additional_context := [] } 0 1 =
      Except.error
        { status_code := 500,
          detail := "An error occurred during CrewAI execution: " ++ "boom" } :=
  ⟨rfl, rfl, trigger_crew_engine_exception_500 [("OPENAI_API_KEY", "sk-test")]
    { production_name := "Test Show", additional_context := [] } "boom"
    (fun _ _ => Except.error "boom") 0 1 rfl rfl⟩

/-- C7: for every request passing the environment precondition whose
engine run succeeds, the response carries the engine run's output as
`result` and the elapsed time between the two clock readings taken
around the engine invocation as `execution_time`; since the event-loop
clock is monotone (the later reading is at least the earlier), that
elapsed time is nonnegative. -/
theorem trigger_crew_success_response (env : List (String × String))
    (request : CrewRequest) (r : String)
    (kickoff : Crew → List (String × String) → Except String String)
    (start_time end_time : ℚ)
    (hkey : pyTruthy (os_getenv env "OPENAI_API_KEY") = true)
    (hrun : kickoff (create_musical_theater_crew request.production_name)
        (buildInputs request.production_name request.additional_context) =
      Except.ok r)
    (hclock : start_time ≤ end_time) :
    trigger_crew kickoff env request start_time end_time =
      Except.ok { result := r, execution_time := end_time - start_time }
    ∧ 0 ≤ end_time - start_time := by
  constructor
  · unfold trigger_crew trigger_crew_gen
    rw [verify_api_keys_present env hkey]
    simp only []
    rw [hrun]
  · linarith

/-- Witness for C7: a set key, a concrete request, an engine stub
returning "OK" and clock readings 0 and 1. -/
theorem trigger_crew_success_response_witness :
    pyTruthy (os_getenv [("OPENAI_API_KEY", "sk-test")] "OPENAI_API_KEY") = true
    ∧ (fun (_ : Crew) (_ : List (String × String)) =>
          (Except.ok "OK" : Except String String))
        (create_musical_theater_crew "Test Show")
        (buildInputs "Test Show" []) = Except.ok "OK"
    ∧ (0 : ℚ) ≤ 1
    ∧ (trigger_crew (fun _ _ => Except.ok "OK")
          [("OPENAI_API_KEY", "sk-test")]
          { production_name := "Test Show", additional_context := [] } 0 1 =
        Except.ok { result := "OK", execution_time := 1 - 0 }
      ∧ (0 : ℚ) ≤ 1 - 0) :=
  ⟨rfl, rfl, by norm_num,
    trigger_crew_success_response [("OPENAI_API_KEY", "sk-test")]
      { production_name := "Test Show", additional_context := [] } "OK"
      (fun _ _ => Except.ok "OK") 0 1 rfl rfl (by norm_num)⟩

/-- C9: when the inputs dict for the engine is built by merging the
production name with additional_context, a context entry keyed
"production_name" overwrites the request field: the merged mapping
yields the context's value at that key.  (The context is a Python dict,
so its keys are distinct.) -/
theorem context_overrides_production_name (request : CrewRequest) (v : String)
    (hnodup : (request.additional_context.map Prod.fst).Nodup)
    (hv : dictGet request.additional_context "production_name" = some v) :
    dictGet (buildInputs request.production_name request.additional_context)
      "production_name" = some v :=
  dictGet_foldl_insert_mem request.additional_context "production_name" v
    hnodup hv [("production_name", request.production_name)]

/-- Witness for C9: a request named "Original" with a context entry
overriding "production_name" to "Override". -/
theorem context_overrides_production_name_witness :
    ((([("production_name", "Override")] : List (String × String)).map
        Prod.fst).Nodup)
    ∧ dictGet [("production_name", "Override")] "production_name" =
        some "Override"
    ∧ dictGet (buildInputs "Original" [("production_name", "Override")])
        "production_name" = some "Override" := by
  have h1 : ((([("production_name", "Override")] : List (String × String)).map
      Prod.fst).Nodup) := by simp
  have h2 : dictGet [("production_name", "Override")] "production_name" =
      some "Override" := rfl
  exact ⟨h1, h2, context_overrides_production_name
    { production_name := "Original",
      additional_context := [("production_name", "Override")] } "Override" h1 h2⟩

/-- C10: an environment variable set to the empty string is treated as
absent: when OPENAI_API_KEY is bound to "" the precondition check raises
the same 500 missing-configuration error, naming that key, as when the
variable is unset. -/
theorem empty_env_var_treated_missing (env env2 : List (String × String))
    (h1 : os_getenv env "OPENAI_API_KEY" = some "")
    (h2 : os_getenv env2 "OPENAI_API_KEY" = none) :
    verify_api_keys env =
      Except.error
        { status_code := 500,
          detail := "Missing required environment variables: OPENAI_API_KEY" }
    ∧ verify_api_keys env = verify_api_keys env2 := by
  have t1 : pyTruthy (os_getenv env "OPENAI_API_KEY") = false := by
    rw [h1]; rfl
  have t2 : pyTruthy (os_getenv env2 "OPENAI_API_KEY") = false := by
    rw [h2]; rfl
  refine ⟨verify_api_keys_missing env t1, ?_⟩
  rw [verify_api_keys_missing env t1, verify_api_keys_missing env2 t2]

/-- Witness for C10: the one-entry environment binding OPENAI_API_KEY to
"" and the empty environment. -/
theorem empty_env_var_treated_missing_witness :
    os_getenv [("OPENAI_API_KEY", "")] "OPENAI_API_KEY" = some ""
    ∧ os_getenv [] "OPENAI_API_KEY" = none
    ∧ (verify_api_keys [("OPENAI_API_KEY", "")] =
        Except.error
          { status_code := 500,
            detail := "Missing required environment variables: OPENAI_API_KEY" }
      ∧ verify_api_keys [("OPENAI_API_KEY", "")] = verify_api_keys []) :=
  ⟨rfl, rfl, empty_env_var_treated_missing [("OPENAI_API_KEY", "")] [] rfl rfl⟩

/-- C5 counterexample: a request whose production_name is the empty
string is NOT rejected — pydantic validation of the declared model
accepts it (the `str` field has no length constraint), and with the
environment precondition satisfied the crew IS run on it (a stubbed
engine returns successfully). -/
theorem empty_production_name_accepted :
    parseCrewRequest (some "") none =
      Except.ok { production_name := "", additional_context := [] }
    ∧ trigger_crew (fun _ _ => Except.ok "OK") [("OPENAI_API_KEY", "sk-test")]
        { production_name := "", additional_context := [] } 0 0 =
      Except.ok { result := "OK", execution_time := 0 - 0 } :=
  ⟨rfl, rfl⟩

/-- C5 (amended): request validation only requires production_name to be
present with the declared field types (any string, the empty string
included, is accepted) and defaults additional_context to the empty
mapping; no other validation is applied to the request body. -/
theorem crew_request_validation_amended (name : String)
    (ctx : Option (List (String × String))) :
    parseCrewRequest (some name) ctx =
      Except.ok { production_name := name, additional_context := ctx.getD [] }
    ∧ parseCrewRequest none ctx =
      Except.error "field required: production_name" :=
  ⟨rfl, rfl⟩

end RenderCrew
